import Mathlib

/-
Verification development for the Requirement-Design-Comparator repository
(src/hi.py).  The two core functions, `parse_document` and `semantic_match`,
are shallowly embedded below; third-party library calls (json.loads,
yaml.safe_load, spacy sentence segmentation, sklearn TfidfVectorizer /
cosine_similarity) are modelled explicitly at the level of behaviour the
source relies on.
-/

set_option autoImplicit false

namespace ReqDesign

/-! ## Tokenization (sklearn `TfidfVectorizer` defaults)

`TfidfVectorizer(stop_words='english')` lowercases the text, extracts
maximal runs of word characters of length at least two (token pattern
`\b\w\w+\b`), and drops tokens belonging to the built-in English stop-word
list. -/

/-- ASCII lowercasing of one character (model of `lowercase=True`). -/
def lowerChar (c : Char) : Char :=
  if 'A' ≤ c ∧ c ≤ 'Z' then Char.ofNat (c.toNat + 32) else c

/-- A word character for the token pattern `\w` (alphanumeric or underscore). -/
def isWordChar (c : Char) : Bool :=
  c.isAlphanum || c == '_'

/-- Splits a character list into maximal runs of word characters.
`acc` holds the current run, reversed. -/
def wordRunsAux : List Char → List Char → List (List Char)
  | [], acc => if acc.isEmpty then [] else [acc.reverse]
  | c :: cs, acc =>
    if isWordChar c then wordRunsAux cs (c :: acc)
    else if acc.isEmpty then wordRunsAux cs []
    else acc.reverse :: wordRunsAux cs []

/-- The token pattern `(?u)\b\w\w+\b` applied to the lowercased text:
maximal word-character runs of length at least two, in order. -/
def tokenize (s : String) : List String :=
  ((wordRunsAux (s.toList.map lowerChar) []).filter (fun r => 2 ≤ r.length)).map String.mk

/-- Model of sklearn's built-in `ENGLISH_STOP_WORDS` frozenset
(the Glasgow information-retrieval stop list used by
`TfidfVectorizer(stop_words='english')`). -/
def english_stop_words : List String :=
  ["a", "about", "above", "across", "after", "afterwards", "again", "against",
   "all", "almost", "alone", "along", "already", "also", "although", "always",
   "am", "among", "amongst", "amoungst", "amount", "an", "and", "another",
   "any", "anyhow", "anyone", "anything", "anyway", "anywhere", "are",
   "around", "as", "at", "back", "be", "became", "because", "become",
   "becomes", "becoming", "been", "before", "beforehand", "behind", "being",
   "below", "beside", "besides", "between", "beyond", "bill", "both",
   "bottom", "but", "by", "call", "can", "cannot", "cant", "co", "con",
   "could", "couldnt", "cry", "de", "describe", "detail", "do", "done",
   "down", "due", "during", "each", "eg", "eight", "either", "eleven",
   "else", "elsewhere", "empty", "enough", "etc", "even", "ever", "every",
   "everyone", "everything", "everywhere", "except", "few", "fifteen",
   "fifty", "fill", "find", "fire", "first", "five", "for", "former",
   "formerly", "forty", "found", "four", "from", "front", "full", "further",
   "get", "give", "go", "had", "has", "hasnt", "have", "he", "hence", "her",
   "here", "hereafter", "hereby", "herein", "hereupon", "hers", "herself",
   "him", "himself", "his", "how", "however", "hundred", "i", "ie", "if",
   "in", "inc", "indeed", "interest", "into", "is", "it", "its", "itself",
   "keep", "last", "latter", "latterly", "least", "less", "ltd", "made",
   "many", "may", "me", "meanwhile", "might", "mill", "mine", "more",
   "moreover", "most", "mostly", "move", "much", "must", "my", "myself",
   "name", "namely", "neither", "never", "nevertheless", "next", "nine",
   "no", "nobody", "none", "noone", "nor", "not", "nothing", "now",
   "nowhere", "of", "off", "often", "on", "once", "one", "only", "onto",
   "or", "other", "others", "otherwise", "our", "ours", "ourselves", "out",
   "over", "own", "part", "per", "perhaps", "please", "put", "rather", "re",
   "same", "see", "seem", "seemed", "seeming", "seems", "serious", "several",
   "she", "should", "show", "side", "since", "sincere", "six", "sixty", "so",
   "some", "somehow", "someone", "something", "sometime", "sometimes",
   "somewhere", "still", "such", "system", "take", "ten", "than", "that",
   "the", "their", "them", "themselves", "then", "thence", "there",
   "thereafter", "thereby", "therefore", "therein", "thereupon", "these",
   "they", "thick", "thin", "third", "this", "those", "though", "three",
   "through", "throughout", "thru", "thus", "to", "together", "too", "top",
   "toward", "towards", "twelve", "twenty", "two", "un", "under", "until",
   "up", "upon", "us", "very", "via", "was", "we", "well", "were", "what",
   "whatever", "when", "whence", "whenever", "where", "whereafter",
   "whereas", "whereby", "wherein", "whereupon", "wherever", "whether",
   "which", "while", "whither", "who", "whoever", "whole", "whom", "whose",
   "why", "will", "with", "within", "without", "would", "yet", "you",
   "your", "yours", "yourself", "yourselves"]

/-- The analyzer of `TfidfVectorizer(stop_words='english')`: tokenize, then
drop stop words. -/
def analyze (doc : String) : List String :=
  (tokenize doc).filter (fun t => t ∉ english_stop_words)

/-- The corpus vocabulary: every distinct term occurring in some corpus
item after analysis (`fit` step of `fit_transform`). -/
def vocabulary (corpus : List String) : List String :=
  ((corpus.map analyze).flatten).dedup

/-- Raw term frequency of `term` in `doc` (sklearn default `sublinear_tf=False`). -/
def tf (doc term : String) : ℕ :=
  (analyze doc).count term

/-- Document frequency: the number of corpus items containing `term`. -/
def df (corpus : List String) (term : String) : ℕ :=
  (corpus.filter (fun d => term ∈ analyze d)).length

/-! ## TF-IDF vectors and cosine similarity

Model of `X = vectorizer.fit_transform(corpus)` followed by
`cosine_similarity(req_vec, design_vecs)` (src/hi.py lines 66-78), with
sklearn defaults `smooth_idf=True`, `norm='l2'`, `sublinear_tf=False`.
The floating-point arithmetic of the source is modelled by exact reals. -/

/-- Smoothed inverse document frequency:
`idf(t) = ln((1 + n) / (1 + df(t))) + 1`. -/
noncomputable def idf (corpus : List String) (term : String) : ℝ :=
  Real.log (((1 + corpus.length : ℕ) : ℝ) / ((1 + df corpus term : ℕ) : ℝ)) + 1

/-- The unnormalized TF-IDF row of a corpus item, as a function on terms
(off-vocabulary terms never contribute: every sum below ranges over the
vocabulary). -/
noncomputable def rowVec (corpus : List String) (doc : String) : String → ℝ :=
  fun term => (tf doc term : ℝ) * idf corpus term

/-- Dot product of two rows over the corpus vocabulary. -/
noncomputable def dotV (corpus : List String) (x y : String → ℝ) : ℝ :=
  ((vocabulary corpus).map (fun t => x t * y t)).sum

/-- Euclidean norm of a row over the corpus vocabulary. -/
noncomputable def l2norm (corpus : List String) (v : String → ℝ) : ℝ :=
  Real.sqrt (dotV corpus v v)

/-- Row normalization used by both `fit_transform` (with `norm='l2'`) and
`cosine_similarity`: rows with zero norm are left unchanged. -/
noncomputable def l2normalize (corpus : List String) (v : String → ℝ) : String → ℝ :=
  fun t => if l2norm corpus v = 0 then v t else v t / l2norm corpus v

/-- The TF-IDF matrix row produced by `fit_transform` for one corpus item
(two items with equal text receive equal rows, so a row is a function of
the item text and the corpus). -/
noncomputable def fitRow (corpus : List String) (doc : String) : String → ℝ :=
  l2normalize corpus (rowVec corpus doc)

/-- `sklearn.metrics.pairwise.cosine_similarity` of two rows: the dot
product of the renormalized rows; a zero vector yields similarity 0. -/
noncomputable def cosine_similarity (corpus : List String) (x y : String → ℝ) : ℝ :=
  dotV corpus (l2normalize corpus x) (l2normalize corpus y)

/-- Cosine similarity of the TF-IDF rows of two corpus items. -/
noncomputable def sim (corpus : List String) (a b : String) : ℝ :=
  cosine_similarity corpus (fitRow corpus a) (fitRow corpus b)

/-! ## The coverage matcher `semantic_match` (src/hi.py lines 65-93) -/

/-- One entry of the feedback list built by `semantic_match`
(the Python dict with keys "requirement", "coverage", "issue"). -/
structure CoverageRecord where
  requirement : String
  coverage : String
  issue : String
deriving DecidableEq

/-- `max_sim` for one requirement: the maximum cosine similarity against
all design rows (`max(similarity_scores)`), and 0 when there are none
(the `else 0` branch of line 79). -/
noncomputable def max_similarity (corpus design : List String) (req : String) : ℝ :=
  match design.map (fun d => sim corpus req d) with
  | [] => 0
  | s :: rest => rest.foldl max s

/-- The record appended to `feedback` for one requirement
(src/hi.py lines 81-92): `Present` with empty issue when
`max_sim >= threshold`, else `Missing` with the fixed issue string. -/
noncomputable def coverage_record (corpus design : List String) (threshold : ℝ)
    (req : String) : CoverageRecord :=
  if max_similarity corpus design req ≥ threshold then
    { requirement := req, coverage := "Present", issue := "" }
  else
    { requirement := req, coverage := "Missing",
      issue := "Requirement not found in design" }

/-- Shallow embedding of `semantic_match(reqs, design, threshold=0.3)`.
The two error cases are the exceptions the source can raise:
`fit_transform` raises `ValueError` when the corpus yields an empty
vocabulary (in particular on an empty corpus), and the loop body raises
`AttributeError` when `design` is empty and at least one requirement is
processed, because line 74 binds `similarity_scores` to a plain Python
list and line 79 then reads `.size` from it. -/
noncomputable def semantic_match (reqs design : List String) (threshold : ℝ) :
    Except String (List CoverageRecord) :=
  let corpus := reqs ++ design
  if vocabulary corpus = [] then
    Except.error "ValueError: empty vocabulary. perhaps the documents only contain stop words"
  else if design = [] ∧ reqs ≠ [] then
    Except.error "AttributeError: list object has no attribute size"
  else
    Except.ok (reqs.map (coverage_record corpus design threshold))

/-- State-threading embedding of `semantic_match`.  Python lists are
mutable, so the two argument lists are treated as explicit state and
returned alongside the result.  Every access the source makes to them is
a read: `corpus = reqs + design` (line 67) allocates a fresh list,
`len(reqs)` (lines 70-71) and `reqs[i]` (line 88) only read, and the loop
appends to the fresh local `feedback` list (line 87), so no statement
writes to either argument and the final state equals the initial one. -/
noncomputable def semantic_match_st (reqs design : List String) (threshold : ℝ) :
    Except String (List CoverageRecord) × List String × List String :=
  let corpus := reqs ++ design
  let result :=
    if vocabulary corpus = [] then
      Except.error "ValueError: empty vocabulary. perhaps the documents only contain stop words"
    else if design = [] ∧ reqs ≠ [] then
      Except.error "AttributeError: list object has no attribute size"
    else
      Except.ok (reqs.map (coverage_record corpus design threshold))
  (result, reqs, design)

/-! ## The document parser `parse_document` (src/hi.py lines 11-63)

`json.loads` / `yaml.safe_load` are third-party parsers; their possible
results are modelled by the tagged value type `JValue`, and the two parse
attempts are passed to the embedding as `Option JValue` arguments
(`none` models a raised `json.JSONDecodeError` / `yaml.YAMLError`).
Likewise, the spacy sentence segmenter `nlp(content).sents` is passed as
a function from the text to its sentence list. -/

/-- A structured-document value: the possible results of `json.loads` and
`yaml.safe_load` (numbers restricted to integers; the claims do not
involve float rendering). -/
inductive JValue where
  | null : JValue
  | bool (b : Bool) : JValue
  | num (n : Int) : JValue
  | str (s : String) : JValue
  | arr (elems : List JValue) : JValue
  | obj (fields : List (String × JValue)) : JValue

mutual

/-- Python `repr` of a parsed value (used by `str` inside containers). -/
def pyRepr : JValue → String
  | .null => "None"
  | .bool true => "True"
  | .bool false => "False"
  | .num n => toString n
  | .str s => "\x27" ++ s ++ "\x27"
  | .arr xs => "[" ++ pyReprList xs ++ "]"
  | .obj kvs => "\x7b" ++ pyReprFields kvs ++ "\x7d"

/-- Comma-separated `repr`s of list elements. -/
def pyReprList : List JValue → String
  | [] => ""
  | [v] => pyRepr v
  | v :: vs => pyRepr v ++ ", " ++ pyReprList vs

/-- Comma-separated `repr`s of dict entries. -/
def pyReprFields : List (String × JValue) → String
  | [] => ""
  | [kv] => "\x27" ++ kv.1 ++ "\x27: " ++ pyRepr kv.2
  | kv :: kvs => "\x27" ++ kv.1 ++ "\x27: " ++ pyRepr kv.2 ++ ", " ++ pyReprFields kvs

end

/-- Python `str` of a parsed value (`str(d)` on line 27 and `str(i)` on
line 31): the text itself for a string, `repr` otherwise. -/
def pyStr : JValue → String
  | .str s => s
  | .null => pyRepr .null
  | .bool b => pyRepr (.bool b)
  | .num n => pyRepr (.num n)
  | .arr xs => pyRepr (.arr xs)
  | .obj kvs => pyRepr (.obj kvs)

mutual

/-- The inner `recurse` helper (src/hi.py lines 20-27): descend into dict
values and list elements, appending `str(d)` for every scalar leaf in
traversal order. -/
def recurse : JValue → List String
  | .obj kvs => recurseFields kvs
  | .arr xs => recurseList xs
  | .null => [pyStr .null]
  | .bool b => [pyStr (.bool b)]
  | .num n => [pyStr (.num n)]
  | .str s => [pyStr (.str s)]

/-- `recurse` over the elements of a list value. -/
def recurseList : List JValue → List String
  | [] => []
  | v :: vs => recurse v ++ recurseList vs

/-- `recurse` over the values of a dict value (keys are skipped:
the source iterates `d.values()`). -/
def recurseFields : List (String × JValue) → List String
  | [] => []
  | kv :: kvs => recurse kv.2 ++ recurseFields kvs

end

/-- What one structured parse attempt contributes (src/hi.py lines 16-31
and 37-52): a dict root is flattened by `recurse`, a list root maps its
top-level elements through `str` with no recursion, and any other root
falls out of the `try` block without returning, so the cascade
continues. -/
def structuredItems : JValue → Option (List String)
  | .obj kvs => some (recurse (.obj kvs))
  | .arr xs => some (xs.map pyStr)
  | _ => none

/-- Python whitespace recognized by `str.strip()`. -/
def isPySpace (c : Char) : Bool :=
  c == ' ' || c == '\t' || c == '\n' || c == '\r' || c == '\x0b' || c == '\x0c'

/-- Model of Python `str.strip()`: drop leading and trailing whitespace. -/
def strip (s : String) : String :=
  String.mk (((s.toList.dropWhile isPySpace).reverse.dropWhile isPySpace).reverse)

/-- Model of Python `content.split('\n')`: split on every newline, keeping
empty pieces (`"".split('\n') == [""]`). -/
def splitNl : List Char → List (List Char)
  | [] => [[]]
  | c :: cs =>
    let r := splitNl cs
    if c = '\n' then [] :: r
    else
      match r with
      | [] => [[c]]
      | l :: ls => (c :: l) :: ls

/-- The stripped non-empty lines of the text (src/hi.py line 57). -/
def detectLines (content : String) : List String :=
  (((splitNl content.toList).map (fun l => strip (String.mk l))).filter (fun l => l ≠ ""))

/-- The sentence-segmentation items (src/hi.py line 63): each detected
sentence, stripped, empty results discarded. -/
def sentence_items (sents : String → List String) (content : String) : List String :=
  ((sents content).map strip).filter (fun s => s ≠ "")

/-- Shallow embedding of `parse_document` on the decoded text.
`jsonResult` and `yamlResult` are the outcomes of `json.loads(content)`
and `yaml.safe_load(content)` (`none` = the parse raised), and `sents`
is the spacy sentence segmenter. -/
def parse_document (jsonResult yamlResult : Option JValue)
    (sents : String → List String) (content : String) : List String :=
  match jsonResult.bind structuredItems with
  | some items => items
  | none =>
    match yamlResult.bind structuredItems with
    | some items => items
    | none =>
      let lines := detectLines content
      if lines.length > 1 then lines
      else sentence_items sents content

/-! ## UTF-8 decoding (src/hi.py line 12)

`file.read().decode("utf-8")` raises `UnicodeDecodeError` exactly on
byte blobs that are not valid (strict, RFC 3629) UTF-8; nothing in
`parse_document` catches it. -/

/-- A UTF-8 continuation byte (`10xxxxxx`). -/
def isCont (b : ℕ) : Bool :=
  0x80 ≤ b && b < 0xC0

/-- Strict UTF-8 decoding of a byte list into code points: rejects
truncated sequences, stray continuation bytes, overlong encodings,
surrogate code points and values above U+10FFFF — exactly the blobs on
which Python `bytes.decode("utf-8")` raises. -/
def utf8Decode : List ℕ → Option (List ℕ)
  | [] => some []
  | b :: rest =>
    if b < 0x80 then (utf8Decode rest).map (fun cs => b :: cs)
    else if 0xC2 ≤ b && b < 0xE0 then
      match rest with
      | b1 :: r =>
        if isCont b1 then
          (utf8Decode r).map (fun cs => ((b - 0xC0) * 0x40 + (b1 - 0x80)) :: cs)
        else none
      | [] => none
    else if 0xE0 ≤ b && b < 0xF0 then
      match rest with
      | b1 :: b2 :: r =>
        if isCont b1 && isCont b2 &&
            !(b == 0xE0 && b1 < 0xA0) && !(b == 0xED && 0xA0 ≤ b1) then
          (utf8Decode r).map
            (fun cs => ((b - 0xE0) * 0x1000 + (b1 - 0x80) * 0x40 + (b2 - 0x80)) :: cs)
        else none
      | _ => none
    else if 0xF0 ≤ b && b < 0xF5 then
      match rest with
      | b1 :: b2 :: b3 :: r =>
        if isCont b1 && isCont b2 && isCont b3 &&
            !(b == 0xF0 && b1 < 0x90) && !(b == 0xF4 && 0x90 ≤ b1) then
          (utf8Decode r).map
            (fun cs => ((b - 0xF0) * 0x40000 + (b1 - 0x80) * 0x1000 +
              (b2 - 0x80) * 0x40 + (b3 - 0x80)) :: cs)
        else none
      | _ => none
    else none

/-- The decoded text, as a string of the decoded code points. -/
def decodeChars (cps : List ℕ) : String :=
  String.mk (cps.map Char.ofNat)

/-- `parse_document` from the raw byte blob: line 12 decodes first, and a
decoding failure propagates to the caller before any parsing or fallback
is attempted. -/
def parse_document_bytes (jsonResult yamlResult : Option JValue)
    (sents : String → List String) (blob : List ℕ) : Except String (List String) :=
  match utf8Decode blob with
  | none => Except.error "UnicodeDecodeError"
  | some cps => Except.ok (parse_document jsonResult yamlResult sents (decodeChars cps))

/-! ## Helper lemmas about the similarity model -/

lemma dotV_congr (corpus : List String) {x x' y y' : String → ℝ}
    (hx : ∀ t, x t = x' t) (hy : ∀ t, y t = y' t) :
    dotV corpus x y = dotV corpus x' y' := by
  unfold dotV
  congr 1
  exact List.map_congr_left fun t _ => by rw [hx, hy]

lemma dotV_self_nonneg (corpus : List String) (x : String → ℝ) :
    0 ≤ dotV corpus x x := by
  apply List.sum_nonneg
  intro v hv
  obtain ⟨t, _, rfl⟩ := List.mem_map.mp hv
  exact mul_self_nonneg _

lemma dotV_zero_left (corpus : List String) {x : String → ℝ} (y : String → ℝ)
    (h : ∀ t, x t = 0) : dotV corpus x y = 0 := by
  apply List.sum_eq_zero
  intro v hv
  obtain ⟨t, _, rfl⟩ := List.mem_map.mp hv
  rw [h t, zero_mul]

lemma dotV_zero_right (corpus : List String) (x : String → ℝ) {y : String → ℝ}
    (h : ∀ t, y t = 0) : dotV corpus x y = 0 := by
  apply List.sum_eq_zero
  intro v hv
  obtain ⟨t, _, rfl⟩ := List.mem_map.mp hv
  rw [h t, mul_zero]

lemma dotV_div_div (corpus : List String) (x y : String → ℝ) (c : ℝ) :
    dotV corpus (fun t => x t / c) (fun t => y t / c) =
      dotV corpus x y / (c * c) := by
  unfold dotV
  rw [show ((vocabulary corpus).map fun t => x t / c * (y t / c))
        = ((vocabulary corpus).map fun t => x t * y t * (c * c)⁻¹) from
      List.map_congr_left fun t _ => by rw [div_mul_div_comm, div_eq_mul_inv],
    List.sum_map_mul_right, div_eq_mul_inv]

lemma one_le_idf (corpus : List String) (t : String) : 1 ≤ idf corpus t := by
  unfold idf
  have hdf : df corpus t ≤ corpus.length := List.length_filter_le _ _
  have hpos : (0 : ℝ) < ((1 + df corpus t : ℕ) : ℝ) := by positivity
  have hdfc : ((df corpus t : ℕ) : ℝ) ≤ ((corpus.length : ℕ) : ℝ) := by
    exact_mod_cast hdf
  have h1 : (1 : ℝ) ≤ ((1 + corpus.length : ℕ) : ℝ) / ((1 + df corpus t : ℕ) : ℝ) := by
    rw [le_div_iff₀ hpos]
    push_cast
    linarith
  have := Real.log_nonneg h1
  linarith

lemma dotV_rowVec_self_pos (corpus : List String) (doc t : String)
    (hd : doc ∈ corpus) (ht : t ∈ analyze doc) :
    0 < dotV corpus (rowVec corpus doc) (rowVec corpus doc) := by
  have hv : t ∈ vocabulary corpus := by
    unfold vocabulary
    rw [List.mem_dedup, List.mem_flatten]
    exact ⟨analyze doc, List.mem_map_of_mem analyze hd, ht⟩
  have hrow : 0 < rowVec corpus doc t := by
    unfold rowVec
    apply mul_pos
    · have : 0 < tf doc t := List.count_pos_iff.mpr ht
      exact_mod_cast this
    · exact lt_of_lt_of_le one_pos (one_le_idf corpus t)
  have hmem : rowVec corpus doc t * rowVec corpus doc t ∈
      (vocabulary corpus).map (fun u => rowVec corpus doc u * rowVec corpus doc u) :=
    List.mem_map_of_mem _ hv
  have hle : rowVec corpus doc t * rowVec corpus doc t ≤
      ((vocabulary corpus).map (fun u => rowVec corpus doc u * rowVec corpus doc u)).sum := by
    apply List.single_le_sum _ _ hmem
    intro x hx
    obtain ⟨u, _, rfl⟩ := List.mem_map.mp hx
    exact mul_self_nonneg _
  exact lt_of_lt_of_le (mul_pos hrow hrow) hle

lemma rowVec_eq_zero (corpus : List String) (doc : String) (h : analyze doc = []) :
    ∀ t, rowVec corpus doc t = 0 := by
  intro t
  unfold rowVec tf
  rw [h]
  simp

lemma sim_self_eq_one (corpus : List String) (doc : String)
    (h : 0 < dotV corpus (rowVec corpus doc) (rowVec corpus doc)) :
    sim corpus doc doc = 1 := by
  have hsqrt : Real.sqrt (dotV corpus (rowVec corpus doc) (rowVec corpus doc)) ≠ 0 := by
    rw [ne_eq, Real.sqrt_eq_zero h.le]
    exact ne_of_gt h
  have hpt : ∀ t, l2normalize corpus (rowVec corpus doc) t =
      rowVec corpus doc t / Real.sqrt (dotV corpus (rowVec corpus doc) (rowVec corpus doc)) := by
    intro t
    unfold l2normalize l2norm
    rw [if_neg hsqrt]
  have hd1 : dotV corpus (l2normalize corpus (rowVec corpus doc))
      (l2normalize corpus (rowVec corpus doc)) = 1 := by
    rw [dotV_congr corpus hpt hpt, dotV_div_div,
      Real.mul_self_sqrt h.le, div_self (ne_of_gt h)]
  have hn2 : l2norm corpus (l2normalize corpus (rowVec corpus doc)) = 1 := by
    unfold l2norm
    rw [hd1, Real.sqrt_one]
  have hpt2 : ∀ t, l2normalize corpus (l2normalize corpus (rowVec corpus doc)) t =
      l2normalize corpus (rowVec corpus doc) t := by
    intro t
    show (if l2norm corpus (l2normalize corpus (rowVec corpus doc)) = 0
        then l2normalize corpus (rowVec corpus doc) t
        else l2normalize corpus (rowVec corpus doc) t /
          l2norm corpus (l2normalize corpus (rowVec corpus doc))) =
      l2normalize corpus (rowVec corpus doc) t
    rw [hn2, if_neg one_ne_zero, div_one]
  show dotV corpus (l2normalize corpus (l2normalize corpus (rowVec corpus doc)))
      (l2normalize corpus (l2normalize corpus (rowVec corpus doc))) = 1
  rw [dotV_congr corpus hpt2 hpt2, hd1]

lemma sim_eq_zero_left (corpus : List String) (a b : String)
    (h : ∀ t, rowVec corpus a t = 0) : sim corpus a b = 0 := by
  have h1 : ∀ t, l2normalize corpus (rowVec corpus a) t = 0 := by
    intro t
    unfold l2normalize
    split
    · exact h t
    · rw [h t, zero_div]
  have h2 : ∀ t, l2normalize corpus (l2normalize corpus (rowVec corpus a)) t = 0 := by
    intro t
    show (if l2norm corpus (l2normalize corpus (rowVec corpus a)) = 0
        then l2normalize corpus (rowVec corpus a) t
        else l2normalize corpus (rowVec corpus a) t /
          l2norm corpus (l2normalize corpus (rowVec corpus a))) = 0
    split
    · exact h1 t
    · rw [h1 t, zero_div]
  exact dotV_zero_left corpus _ h2

lemma sim_eq_zero_right (corpus : List String) (a b : String)
    (h : ∀ t, rowVec corpus b t = 0) : sim corpus a b = 0 := by
  have h1 : ∀ t, l2normalize corpus (rowVec corpus b) t = 0 := by
    intro t
    unfold l2normalize
    split
    · exact h t
    · rw [h t, zero_div]
  have h2 : ∀ t, l2normalize corpus (l2normalize corpus (rowVec corpus b)) t = 0 := by
    intro t
    show (if l2norm corpus (l2normalize corpus (rowVec corpus b)) = 0
        then l2normalize corpus (rowVec corpus b) t
        else l2normalize corpus (rowVec corpus b) t /
          l2norm corpus (l2normalize corpus (rowVec corpus b))) = 0
    split
    · exact h1 t
    · rw [h1 t, zero_div]
  exact dotV_zero_right corpus _ h2

lemma init_le_foldl_max (l : List ℝ) (b : ℝ) : b ≤ l.foldl max b := by
  induction l generalizing b with
  | nil => exact le_refl b
  | cons x xs ih => exact le_trans (le_max_left b x) (ih (max b x))

lemma mem_le_foldl_max {l : List ℝ} {a : ℝ} (h : a ∈ l) (b : ℝ) :
    a ≤ l.foldl max b := by
  induction l generalizing b with
  | nil => cases h
  | cons x xs ih =>
    rcases List.mem_cons.mp h with rfl | h2
    · exact le_trans (le_max_right b a) (init_le_foldl_max xs (max b a))
    · exact ih h2 (max b x)

lemma le_max_similarity (corpus design : List String) (req d : String)
    (hd : d ∈ design) :
    sim corpus req d ≤ max_similarity corpus design req := by
  unfold max_similarity
  have hmem : sim corpus req d ∈ design.map (fun d0 => sim corpus req d0) :=
    List.mem_map_of_mem _ hd
  cases hme : design.map (fun d0 => sim corpus req d0) with
  | nil => rw [hme] at hmem; cases hmem
  | cons s rest =>
    rw [hme] at hmem
    show sim corpus req d ≤ List.foldl max s rest
    rcases List.mem_cons.mp hmem with h | h
    · rw [h]
      exact init_le_foldl_max rest s
    · exact mem_le_foldl_max h s

lemma coverage_record_present (corpus design : List String) (t : ℝ) (req : String)
    (h : max_similarity corpus design req ≥ t) :
    coverage_record corpus design t req =
      { requirement := req, coverage := "Present", issue := "" } := by
  unfold coverage_record
  rw [if_pos h]

lemma coverage_record_missing (corpus design : List String) (t : ℝ) (req : String)
    (h : ¬ max_similarity corpus design req ≥ t) :
    coverage_record corpus design t req =
      { requirement := req, coverage := "Missing",
        issue := "Requirement not found in design" } := by
  unfold coverage_record
  rw [if_neg h]

lemma coverage_record_requirement (corpus design : List String) (t : ℝ) (req : String) :
    (coverage_record corpus design t req).requirement = req := by
  unfold coverage_record
  split <;> rfl

lemma semantic_match_ok (reqs design : List String) (t : ℝ)
    (report : List CoverageRecord)
    (h : semantic_match reqs design t = Except.ok report) :
    report = reqs.map (coverage_record (reqs ++ design) design t) := by
  simp only [semantic_match] at h
  split_ifs at h <;> cases h <;> rfl

lemma get_map_coverage (corpus design : List String) (t : ℝ) (reqs : List String)
    (i : ℕ) (hi : i < reqs.length)
    (hir : i < (reqs.map (coverage_record corpus design t)).length) :
    (reqs.map (coverage_record corpus design t)).get ⟨i, hir⟩ =
      coverage_record corpus design t (reqs.get ⟨i, hi⟩) := by
  simp [List.get_eq_getElem, List.getElem_map]

/-! ## Concrete evaluations used by the witnesses -/

lemma semantic_match_eval_hw (t : ℝ) (ht : t ≤ 1) :
    semantic_match ["hello world"] ["hello world"] t =
      Except.ok [{ requirement := "hello world", coverage := "Present", issue := "" }] := by
  have hdot : 0 < dotV ["hello world", "hello world"]
      (rowVec ["hello world", "hello world"] "hello world")
      (rowVec ["hello world", "hello world"] "hello world") :=
    dotV_rowVec_self_pos _ "hello world" "hello" (by decide) (by decide)
  have hsim : sim ["hello world", "hello world"] "hello world" "hello world" = 1 :=
    sim_self_eq_one _ _ hdot
  have hmax : max_similarity ["hello world", "hello world"] ["hello world"] "hello world" ≥ t := by
    have h := le_max_similarity ["hello world", "hello world"] ["hello world"]
      "hello world" "hello world" (by decide)
    rw [hsim] at h
    linarith
  simp only [semantic_match]
  rw [if_neg (by decide), if_neg (by simp)]
  simp only [List.cons_append, List.nil_append, List.map_cons, List.map_nil]
  rw [coverage_record_present _ _ _ _ hmax]

lemma semantic_match_eval_the :
    semantic_match ["the", "hello world"] ["the", "hello world"] (3 / 10) =
      Except.ok
        [{ requirement := "the", coverage := "Missing",
           issue := "Requirement not found in design" },
         { requirement := "hello world", coverage := "Present", issue := "" }] := by
  have hzero : ∀ u, rowVec ["the", "hello world", "the", "hello world"] "the" u = 0 :=
    rowVec_eq_zero _ "the" (by decide)
  have hmax_the : ¬ max_similarity ["the", "hello world", "the", "hello world"]
      ["the", "hello world"] "the" ≥ (3 / 10 : ℝ) := by
    have h : max_similarity ["the", "hello world", "the", "hello world"]
        ["the", "hello world"] "the" = 0 := by
      unfold max_similarity
      simp only [List.map_cons, List.map_nil]
      rw [sim_eq_zero_left _ _ _ hzero, sim_eq_zero_left _ _ _ hzero]
      simp
    rw [h]
    norm_num
  have hdot : 0 < dotV ["the", "hello world", "the", "hello world"]
      (rowVec ["the", "hello world", "the", "hello world"] "hello world")
      (rowVec ["the", "hello world", "the", "hello world"] "hello world") :=
    dotV_rowVec_self_pos _ "hello world" "hello" (by decide) (by decide)
  have hsim : sim ["the", "hello world", "the", "hello world"]
      "hello world" "hello world" = 1 :=
    sim_self_eq_one _ _ hdot
  have hmax_hw : max_similarity ["the", "hello world", "the", "hello world"]
      ["the", "hello world"] "hello world" ≥ (3 / 10 : ℝ) := by
    have h := le_max_similarity ["the", "hello world", "the", "hello world"]
      ["the", "hello world"] "hello world" "hello world" (by decide)
    rw [hsim] at h
    linarith
  simp only [semantic_match]
  rw [if_neg (by decide), if_neg (by simp)]
  simp only [List.cons_append, List.nil_append, List.map_cons, List.map_nil]
  rw [coverage_record_missing _ _ _ _ hmax_the, coverage_record_present _ _ _ _ hmax_hw]

/-! ## Claims -/

/-- C1: whenever `semantic_match` returns a report, the report has exactly
`reqs.length` records, and the i-th record's `requirement` field is the
full, untruncated text `reqs[i]`, in input order. -/
theorem C1_report_cardinality_and_order (reqs design : List String) (t : ℝ)
    (report : List CoverageRecord)
    (hok : semantic_match reqs design t = Except.ok report) :
    report.length = reqs.length ∧
      ∀ i (hi : i < reqs.length) (hir : i < report.length),
        (report.get ⟨i, hir⟩).requirement = reqs.get ⟨i, hi⟩ := by
  obtain rfl := semantic_match_ok reqs design t report hok
  refine ⟨List.length_map _ _, ?_⟩
  intro i hi hir
  rw [get_map_coverage _ _ _ _ _ hi]
  exact coverage_record_requirement _ _ _ _

/-- Witness for C1 at reqs = design = ["hello world"], threshold 0.3. -/
theorem C1_witness :
    ([⟨"hello world", "Present", ""⟩] : List CoverageRecord).length =
        (["hello world"] : List String).length ∧
      ∀ i (hi : i < (["hello world"] : List String).length)
          (hir : i < ([⟨"hello world", "Present", ""⟩] : List CoverageRecord).length),
        (([⟨"hello world", "Present", ""⟩] : List CoverageRecord).get
            ⟨i, hir⟩).requirement =
          (["hello world"] : List String).get ⟨i, hi⟩ :=
  C1_report_cardinality_and_order ["hello world"] ["hello world"] (3 / 10) _
    (semantic_match_eval_hw (3 / 10) (by norm_num))

/-- C2 (code bug exhibit): the spec promises `match(R, [])` returns a report
with every record Missing and that zero design or requirement items never
raise, but the source crashes: with a non-empty requirements list and an
empty design list, line 74 binds `similarity_scores` to a plain Python
list `[]` and line 79 reads `.size` from it, raising `AttributeError`;
with an empty corpus, `fit_transform` raises `ValueError`.  The only part
the code honours is `match([], D) = []` for design lists with vocabulary. -/
theorem C2_empty_design_crash :
    semantic_match ["user can log in"] [] (3 / 10) =
        Except.error "AttributeError: list object has no attribute size" ∧
      semantic_match [] [] (3 / 10) =
        Except.error
          "ValueError: empty vocabulary. perhaps the documents only contain stop words" ∧
      semantic_match [] ["login flow"] (3 / 10) = Except.ok [] :=
  ⟨rfl, rfl, rfl⟩

/-- C3: a record is `Present` exactly when the maximum cosine similarity of
its requirement against all design rows reaches the threshold (inclusive),
and the `issue` field is the fixed string exactly on `Missing` and empty
exactly on `Present`. -/
theorem C3_classification_iff (reqs design : List String) (t : ℝ)
    (report : List CoverageRecord)
    (hok : semantic_match reqs design t = Except.ok report)
    (i : ℕ) (hi : i < reqs.length) (hir : i < report.length) :
    ((report.get ⟨i, hir⟩).coverage = "Present" ↔
        max_similarity (reqs ++ design) design (reqs.get ⟨i, hi⟩) ≥ t) ∧
      ((report.get ⟨i, hir⟩).issue = "Requirement not found in design" ↔
        (report.get ⟨i, hir⟩).coverage = "Missing") ∧
      ((report.get ⟨i, hir⟩).issue = "" ↔
        (report.get ⟨i, hir⟩).coverage = "Present") := by
  obtain rfl := semantic_match_ok reqs design t report hok
  rw [get_map_coverage _ _ _ _ _ hi]
  by_cases hc : max_similarity (reqs ++ design) design (reqs.get ⟨i, hi⟩) ≥ t
  · rw [coverage_record_present _ _ _ _ hc]
    exact ⟨iff_of_true rfl hc, iff_of_false (by simp) (by simp), iff_of_true rfl rfl⟩
  · rw [coverage_record_missing _ _ _ _ hc]
    exact ⟨iff_of_false (by simp) hc, iff_of_true rfl rfl,
      iff_of_false (by simp) (by simp)⟩

/-- Witness for C3 at reqs = design = ["hello world"], threshold 0.3, i = 0. -/
theorem C3_witness :
    ((([⟨"hello world", "Present", ""⟩] : List CoverageRecord).get
          ⟨0, by decide⟩).coverage = "Present" ↔
        max_similarity (["hello world"] ++ ["hello world"]) ["hello world"]
          ((["hello world"] : List String).get ⟨0, by decide⟩) ≥ (3 / 10 : ℝ)) ∧
      ((([⟨"hello world", "Present", ""⟩] : List CoverageRecord).get
            ⟨0, by decide⟩).issue = "Requirement not found in design" ↔
        (([⟨"hello world", "Present", ""⟩] : List CoverageRecord).get
            ⟨0, by decide⟩).coverage = "Missing") ∧
      ((([⟨"hello world", "Present", ""⟩] : List CoverageRecord).get
            ⟨0, by decide⟩).issue = "" ↔
        (([⟨"hello world", "Present", ""⟩] : List CoverageRecord).get
            ⟨0, by decide⟩).coverage = "Present") :=
  C3_classification_iff ["hello world"] ["hello world"] (3 / 10) _
    (semantic_match_eval_hw (3 / 10) (by norm_num)) 0 (by decide) (by decide)

/-- C4: for a fixed (reqs, design) pair and thresholds t1 ≤ t2, a record
Missing at t1 stays Missing at t2, and a record Present at t2 stays
Present at t1. -/
theorem C4_threshold_monotonicity (reqs design : List String) (t1 t2 : ℝ)
    (h12 : t1 ≤ t2) (r1 r2 : List CoverageRecord)
    (h1 : semantic_match reqs design t1 = Except.ok r1)
    (h2 : semantic_match reqs design t2 = Except.ok r2)
    (i : ℕ) (hi : i < reqs.length) (hi1 : i < r1.length) (hi2 : i < r2.length) :
    ((r1.get ⟨i, hi1⟩).coverage = "Missing" → (r2.get ⟨i, hi2⟩).coverage = "Missing") ∧
      ((r2.get ⟨i, hi2⟩).coverage = "Present" → (r1.get ⟨i, hi1⟩).coverage = "Present") := by
  obtain rfl := semantic_match_ok reqs design t1 r1 h1
  obtain rfl := semantic_match_ok reqs design t2 r2 h2
  rw [get_map_coverage _ _ _ _ _ hi, get_map_coverage _ _ _ _ _ hi]
  by_cases hc2 : max_similarity (reqs ++ design) design (reqs.get ⟨i, hi⟩) ≥ t2
  · have hc1 : max_similarity (reqs ++ design) design (reqs.get ⟨i, hi⟩) ≥ t1 :=
      le_trans h12 hc2
    rw [coverage_record_present _ _ _ _ hc1, coverage_record_present _ _ _ _ hc2]
    exact ⟨fun hx => absurd hx (by simp), fun _ => rfl⟩
  · rw [coverage_record_missing _ _ _ _ hc2]
    by_cases hc1 : max_similarity (reqs ++ design) design (reqs.get ⟨i, hi⟩) ≥ t1
    · rw [coverage_record_present _ _ _ _ hc1]
      exact ⟨fun hx => absurd hx (by simp), fun hx => absurd hx (by simp)⟩
    · rw [coverage_record_missing _ _ _ _ hc1]
      exact ⟨fun _ => rfl, fun hx => absurd hx (by simp)⟩

/-- Witness for C4 at reqs = design = ["hello world"], thresholds 0.3 ≤ 0.5. -/
theorem C4_witness :
    ((([⟨"hello world", "Present", ""⟩] : List CoverageRecord).get
            ⟨0, by decide⟩).coverage = "Missing" →
        (([⟨"hello world", "Present", ""⟩] : List CoverageRecord).get
            ⟨0, by decide⟩).coverage = "Missing") ∧
      ((([⟨"hello world", "Present", ""⟩] : List CoverageRecord).get
            ⟨0, by decide⟩).coverage = "Present" →
        (([⟨"hello world", "Present", ""⟩] : List CoverageRecord).get
            ⟨0, by decide⟩).coverage = "Present") :=
  C4_threshold_monotonicity ["hello world"] ["hello world"] (3 / 10) (1 / 2)
    (by norm_num) _ _
    (semantic_match_eval_hw (3 / 10) (by norm_num))
    (semantic_match_eval_hw (1 / 2) (by norm_num))
    0 (by decide) (by decide) (by decide)

/-- C5 counterexample: X = ["the", "hello world"] is non-empty and contains
non-stop-words, and the threshold 0.3 is at most 1, yet match(X, X) marks
the all-stop-word item "the" Missing (its TF-IDF vector is zero, so its
maximum similarity is 0, not 1), so not every record is Present. -/
theorem C5_counterexample :
    (["the", "hello world"] : List String) ≠ [] ∧
      (∃ x ∈ (["the", "hello world"] : List String),
        ∃ tk ∈ tokenize x, tk ∉ english_stop_words) ∧
      (3 / 10 : ℝ) ≤ 1 ∧
      semantic_match ["the", "hello world"] ["the", "hello world"] (3 / 10) =
        Except.ok [⟨"the", "Missing", "Requirement not found in design"⟩,
          ⟨"hello world", "Present", ""⟩] ∧
      ¬ ∀ r ∈ ([⟨"the", "Missing", "Requirement not found in design"⟩,
          ⟨"hello world", "Present", ""⟩] : List CoverageRecord),
        r.coverage = "Present" :=
  ⟨by decide, by decide, by norm_num, semantic_match_eval_the, by decide⟩

/-- C5 (amended): for every non-empty item sequence X in which EVERY ITEM
contains at least one non-stop-word token (rather than X as a whole), and
every threshold at most 1, match(X, X) yields coverage = Present for every
record, because each requirement matches itself with similarity 1. -/
theorem C5_selfcoverage_amended (X : List String) (t : ℝ) (hne : X ≠ [])
    (hitems : ∀ x ∈ X, analyze x ≠ []) (ht : t ≤ 1) :
    ∃ report, semantic_match X X t = Except.ok report ∧
      ∀ r ∈ report, r.coverage = "Present" := by
  obtain ⟨x0, hx0⟩ : ∃ x, x ∈ X := by
    cases X with
    | nil => exact absurd rfl hne
    | cons a l => exact ⟨a, List.mem_cons_self a l⟩
  obtain ⟨t0, ht0⟩ : ∃ u, u ∈ analyze x0 := by
    cases he : analyze x0 with
    | nil => exact absurd he (hitems x0 hx0)
    | cons a l => exact ⟨a, he ▸ List.mem_cons_self a l⟩
  have hvoc : ¬ vocabulary (X ++ X) = [] := by
    have hmem : t0 ∈ vocabulary (X ++ X) := by
      unfold vocabulary
      rw [List.mem_dedup, List.mem_flatten]
      exact ⟨analyze x0, List.mem_map_of_mem analyze (List.mem_append_left X hx0), ht0⟩
    intro hh
    rw [hh] at hmem
    cases hmem
  refine ⟨X.map (coverage_record (X ++ X) X t), ?_, ?_⟩
  · simp only [semantic_match]
    rw [if_neg hvoc, if_neg (by simp [hne])]
  · intro r hr
    obtain ⟨x, hx, rfl⟩ := List.mem_map.mp hr
    obtain ⟨tx, htx⟩ : ∃ u, u ∈ analyze x := by
      cases he : analyze x with
      | nil => exact absurd he (hitems x hx)
      | cons a l => exact ⟨a, he ▸ List.mem_cons_self a l⟩
    have hdot := dotV_rowVec_self_pos (X ++ X) x tx (List.mem_append_left X hx) htx
    have hsim := sim_self_eq_one (X ++ X) x hdot
    have hmax : max_similarity (X ++ X) X x ≥ t := by
      have h := le_max_similarity (X ++ X) X x x hx
      rw [hsim] at h
      linarith
    rw [coverage_record_present _ _ _ _ hmax]

/-- Witness for the amended C5 at X = ["hello world"], threshold 0.3. -/
theorem C5_witness :
    ∃ report, semantic_match ["hello world"] ["hello world"] (3 / 10) =
        Except.ok report ∧ ∀ r ∈ report, r.coverage = "Present" :=
  C5_selfcoverage_amended ["hello world"] (3 / 10) (by decide) (by decide) (by norm_num)

/-- C6: when the structured parse succeeds with a map root, the output is
the recursive flattening of the tree (stringified scalar leaves in
traversal order); with a sequence root, each top-level element is
stringified directly with no recursion.  The spec example blob yields
exactly its three leaf strings, and a nested list under a sequence root
is rendered, not flattened. -/
theorem C6_structured_flatten :
    (∀ (kvs : List (String × JValue)) (y : Option JValue)
        (s : String → List String) (c : String),
      parse_document (some (JValue.obj kvs)) y s c = recurse (JValue.obj kvs)) ∧
      (∀ (xs : List JValue) (y : Option JValue) (s : String → List String) (c : String),
        parse_document (some (JValue.arr xs)) y s c = xs.map pyStr) ∧
      parse_document
          (some (JValue.obj [("a", JValue.str "req one"),
            ("b", JValue.arr [JValue.str "req two", JValue.str "req three"])]))
          none (fun _ => []) "" = ["req one", "req two", "req three"] ∧
      parse_document (some (JValue.arr [JValue.arr [JValue.str "req two"]]))
          none (fun _ => []) "" = ["[\x27req two\x27]"] :=
  ⟨fun _ _ _ _ => rfl, fun _ _ _ _ => rfl, by decide, by decide⟩

/-- C7: when both structured parse attempts contribute nothing, the parser
returns the stripped non-empty lines when there are at least two of them,
and otherwise the stripped non-empty detected sentences of the original,
undivided text. -/
theorem C7_plaintext_fallback (jres yres : Option JValue)
    (sents : String → List String) (content : String)
    (hj : jres.bind structuredItems = none) (hy : yres.bind structuredItems = none) :
    (2 ≤ (detectLines content).length →
        parse_document jres yres sents content = detectLines content) ∧
      ((detectLines content).length ≤ 1 →
        parse_document jres yres sents content = sentence_items sents content) := by
  have hp : parse_document jres yres sents content =
      (if (detectLines content).length > 1 then detectLines content
        else sentence_items sents content) := by
    simp only [parse_document, hj, hy]
  constructor
  · intro h2
    rw [hp, if_pos (by omega)]
  · intro h1
    rw [hp, if_neg (by omega)]

/-- Witness for C7: the two-line blob returns its stripped lines, and a
single line holding two sentences returns one item per detected sentence,
each stripped. -/
theorem C7_witness :
    parse_document none none (fun _ => []) "Line one.\nLine two.\n" =
        detectLines "Line one.\nLine two.\n" ∧
      detectLines "Line one.\nLine two.\n" = ["Line one.", "Line two."] ∧
      parse_document none none (fun _ => ["First sentence. ", "Second sentence."])
          "First sentence. Second sentence." =
        ["First sentence.", "Second sentence."] := by
  refine ⟨(C7_plaintext_fallback none none _ _ rfl rfl).1 (by decide), by decide, ?_⟩
  have h := (C7_plaintext_fallback none none
    (fun _ => ["First sentence. ", "Second sentence."])
    "First sentence. Second sentence." rfl rfl).2 (by decide)
  rw [h]
  decide

/-- C8: parsing from the raw blob fails with a decoding error exactly when
the blob is not valid UTF-8; on failure the error is surfaced with no item
sequence and no fallback, and on success the decoded text is parsed. -/
theorem C8_utf8_decoding (j y : Option JValue) (s : String → List String)
    (blob : List ℕ) :
    ((∃ e, parse_document_bytes j y s blob = Except.error e) ↔
        utf8Decode blob = none) ∧
      (utf8Decode blob = none →
        parse_document_bytes j y s blob = Except.error "UnicodeDecodeError") ∧
      ∀ cps, utf8Decode blob = some cps →
        parse_document_bytes j y s blob =
          Except.ok (parse_document j y s (decodeChars cps)) := by
  unfold parse_document_bytes
  cases hd : utf8Decode blob with
  | none =>
    refine ⟨⟨fun _ => rfl, fun _ => ⟨"UnicodeDecodeError", rfl⟩⟩, fun _ => rfl,
      fun cps h => ?_⟩
    cases h
  | some cps0 =>
    refine ⟨⟨?_, fun h => ?_⟩, fun h => ?_, fun cps h => ?_⟩
    · rintro ⟨e, he⟩
      cases he
    · cases h
    · cases h
    · cases h
      rfl

/-- Witness for C8: the lone byte 0xFF is not valid UTF-8 and is rejected
with the decoding error, before any parsing. -/
theorem C8_witness :
    parse_document_bytes none none (fun _ => []) [255] =
      Except.error "UnicodeDecodeError" :=
  (C8_utf8_decoding none none (fun _ => []) [255]).2.1 rfl

/-- C9: a structured parse that succeeds with a scalar root (not a map or
sequence) never determines the output: the JSON stage and the YAML stage
each behave as if that parse had failed, and when both roots are scalars
the cascade reaches the line/sentence fallback. -/
theorem C9_scalar_root_falls_through (v : JValue) (hv : structuredItems v = none) :
    (∀ (y : Option JValue) (s : String → List String) (c : String),
        parse_document (some v) y s c = parse_document none y s c) ∧
      (∀ (j : Option JValue) (s : String → List String) (c : String),
        parse_document j (some v) s c = parse_document j none s c) ∧
      ∀ (v2 : JValue) (s : String → List String) (c : String),
        structuredItems v2 = none →
        parse_document (some v) (some v2) s c =
          (if (detectLines c).length > 1 then detectLines c
            else sentence_items s c) := by
  refine ⟨?_, ?_, ?_⟩
  · intro y s c
    simp only [parse_document, Option.some_bind, hv, Option.none_bind]
  · intro j s c
    cases hj : j.bind structuredItems with
    | none => simp only [parse_document, hj, Option.some_bind, hv, Option.none_bind]
    | some items => simp only [parse_document, hj]
  · intro v2 s c hv2
    simp only [parse_document, Option.some_bind, hv, hv2]

/-- Witness for C9: a scalar-rooted JSON parse and a scalar-rooted YAML
parse are both discarded and the single-line text is sentence-segmented. -/
theorem C9_witness :
    parse_document (some (JValue.str "just plain prose")) (some (JValue.num 3))
        (fun _ => ["First sentence. ", "Second sentence."])
        "First sentence. Second sentence." =
      ["First sentence.", "Second sentence."] := by
  have h := (C9_scalar_root_falls_through (JValue.str "just plain prose") rfl).2.2
    (JValue.num 3) (fun _ => ["First sentence. ", "Second sentence."])
    "First sentence. Second sentence." rfl
  rw [h]
  decide

/-- C10: the matcher leaves both input lists unchanged — in the
state-threading embedding the lists returned after the call equal the
lists passed in, and the report is the one computed by `semantic_match` —
because the source only reads them (fresh corpus concatenation, fresh
feedback list). -/
theorem C10_inputs_unchanged (reqs design : List String) (t : ℝ) :
    (semantic_match_st reqs design t).2.1 = reqs ∧
      (semantic_match_st reqs design t).2.2 = design ∧
      (semantic_match_st reqs design t).1 = semantic_match reqs design t :=
  ⟨rfl, rfl, rfl⟩

end ReqDesign
